import Mathlib

/-!
# Verification of the connection-pool-manager core

Shallow embedding of the tenant-scoped pool registry (`pkg/pool/pool.go`),
the handle codec and the gRPC service façade (`internal/service/service.go`)
of the `teresa-solution/connection-pool-manager` repository.

Go strings are embedded as `List Char` so that the handle-splitting logic
(`strings.Split(s, "-")`) can be reasoned about by structural induction.
The external pgx pooling library is a black-box collaborator; it is
modelled by an environment `PgxEnv` supplying `ParseConfig`, pool
construction and `Stat`. The Go map `map[string]*pgxpool.Pool` is
modelled as an association list with Go map lookup/assign/delete
semantics. The `pool.Close()` effect is recorded in a `closed` trace so
that resource-closing claims are statable.
-/

set_option autoImplicit false

deriving instance DecidableEq for Except

namespace ConnPool

/-- A Go string, embedded as its list of characters. -/
abbrev GoString := List Char

/-- A pool instance identity (`*pgxpool.Pool` pointer values are abstract). -/
abbrev Pool := Nat

/-- `pool.Stats` from `pkg/pool/pool.go` (int32 counters, kept as `Int`). -/
structure Stats where
  activeConnections : Int
  idleConnections : Int
  totalConnections : Int
  deriving DecidableEq, Repr

/-- The part of `pgxpool.Config` the code touches: an abstract parsed core
plus the four tuning fields that `GetConnection` overwrites. Durations are
in nanoseconds, matching Go `time.Duration`. -/
structure PgxConfig where
  connString : GoString
  maxConns : Int
  minConns : Int
  maxConnLifetime : Int
  maxConnIdleTime : Int
  deriving DecidableEq, Repr

/-- The external pgx pooling library, a black-box collaborator:
`ParseConfig`, `NewWithConfig` and `(*Pool).Stat`. Fallible calls return
`Except` with the Go error text. -/
structure PgxEnv where
  parseConfig : GoString → Except GoString PgxConfig
  newPool : PgxConfig → Except GoString Pool
  stat : Pool → Stats

/-- Go map lookup `m[k]` (comma-ok form): first binding whose key equals
`k` exactly, as string equality. -/
def mapLookup (m : List (GoString × Pool)) (k : GoString) : Option Pool :=
  match m with
  | [] => none
  | (k₀, v₀) :: rest => if k₀ = k then some v₀ else mapLookup rest k

/-- Go map assignment `m[k] = v`: replace the binding if the key is
present, otherwise add it. -/
def mapInsert (m : List (GoString × Pool)) (k : GoString) (v : Pool) :
    List (GoString × Pool) :=
  match m with
  | [] => [(k, v)]
  | (k₀, v₀) :: rest =>
    if k₀ = k then (k, v) :: rest else (k₀, v₀) :: mapInsert rest k v

/-- Go map deletion `delete(m, k)`. -/
def mapErase (m : List (GoString × Pool)) (k : GoString) :
    List (GoString × Pool) :=
  match m with
  | [] => []
  | (k₀, v₀) :: rest =>
    if k₀ = k then mapErase rest k else (k₀, v₀) :: mapErase rest k

/-- State of a `ConnectionPoolManager`: the `pools` map, plus a trace of
the pools on which `Close()` has been called (the effect of
`pool.Close()` on the external library, recorded so that
resource-closing behaviour is observable in the model). -/
structure PoolState where
  pools : List (GoString × Pool)
  closed : List Pool
  deriving DecidableEq, Repr

/-- `NewConnectionPoolManager()`: empty map, nothing closed. -/
def newConnectionPoolManager : PoolState := { pools := [], closed := [] }

/-- The registry key `tenantID + ":" + dsn` built by every
`ConnectionPoolManager` method. -/
def mkKey (tenantID dsn : GoString) : GoString := tenantID ++ ':' :: dsn

/-- The four field assignments on the parsed config (pool.go 37–40):
`MaxConns = 20`, `MinConns = 5`, `MaxConnLifetime = 30min`,
`MaxConnIdleTime = 5min`. -/
def withDefaults (config : PgxConfig) : PgxConfig :=
  { config with
    maxConns := 20
    minConns := 5
    maxConnLifetime := 30 * 60 * 1000000000
    maxConnIdleTime := 5 * 60 * 1000000000 }

/-- `ConnectionPoolManager.GetConnection` (pool.go lines 24–50): return
the cached pool if the key is present; otherwise parse the dsn, apply the
fixed defaults (max 20, min 5, lifetime 30 min, idle 5 min), construct,
cache and return. Failures return the error and leave the state as-is. -/
def GetConnection (env : PgxEnv) (s : PoolState) (tenantID dsn : GoString) :
    Except GoString Pool × PoolState :=
  let key := mkKey tenantID dsn
  match mapLookup s.pools key with
  | some pool => (.ok pool, s)
  | none =>
    match env.parseConfig dsn with
    | .error e => (.error e, s)
    | .ok config₀ =>
      match env.newPool (withDefaults config₀) with
      | .error e => (.error e, s)
      | .ok pool =>
        (.ok pool, { s with pools := mapInsert s.pools key pool })

/-- The error text `"pool not found for tenant %s and dsn %s"`. -/
def poolNotFoundMsg (tenantID dsn : GoString) : GoString :=
  "pool not found for tenant ".data ++ tenantID ++ " and dsn ".data ++ dsn

/-- `ConnectionPoolManager.ReleaseConnection` (pool.go lines 52–64):
close the pool and delete the key if present, else report not-found. -/
def ReleaseConnection (s : PoolState) (tenantID dsn : GoString) :
    Except GoString Unit × PoolState :=
  let key := mkKey tenantID dsn
  match mapLookup s.pools key with
  | some pool =>
    (.ok (), { pools := mapErase s.pools key, closed := s.closed ++ [pool] })
  | none => (.error (poolNotFoundMsg tenantID dsn), s)

/-- `ConnectionPoolManager.GetStats` (pool.go lines 66–80): read a live
snapshot if the key is present, else return the zero `Stats` and a
not-found error. Mirrors the Go `(Stats, error)` pair return. -/
def GetStats (env : PgxEnv) (s : PoolState) (tenantID dsn : GoString) :
    (Stats × Option GoString) × PoolState :=
  let key := mkKey tenantID dsn
  match mapLookup s.pools key with
  | some pool => ((env.stat pool, none), s)
  | none => ((⟨0, 0, 0⟩, some (poolNotFoundMsg tenantID dsn)), s)

/-! ## Handle codec and service façade (internal/service/service.go) -/

/-- `strings.Split(s, "-")` for the single-character separator, on the
`List Char` embedding: `splitOnChar sep ""` is `[""]`, and every
occurrence of `sep` starts a new segment. -/
def splitOnChar (sep : Char) : List Char → List (List Char)
  | [] => [[]]
  | c :: rest =>
    if c = sep then [] :: splitOnChar sep rest
    else
      match splitOnChar sep rest with
      | [] => [[c]]
      | g :: gs => (c :: g) :: gs

/-- Fuel-based decimal rendering helper; `fuel` bounds the number of
division steps, so the recursion is structural and kernel-evaluable. -/
def natDigitsAux : Nat → Nat → List Char
  | 0, _ => []
  | fuel + 1, n =>
    if n < 10 then [Char.ofNat (48 + n)]
    else natDigitsAux fuel (n / 10) ++ [Char.ofNat (48 + n % 10)]

/-- Decimal rendering of a natural number, as `fmt.Sprintf("%d", n)`
produces for a non-negative value. -/
def natDigits (n : Nat) : List Char := natDigitsAux (n + 1) n

/-- The codec encode: `fmt.Sprintf("conn-%s-%d", tenantID, nano)`
(service.go line 513). The timestamp argument is passed in, since
`time.Now().UnixNano()` is an input of the model. -/
def encodeHandle (tenantID : GoString) (nano : Nat) : GoString :=
  "conn-".data ++ tenantID ++ '-' :: natDigits nano

/-- The error text `"invalid connection ID"`. -/
def invalidConnId : GoString := "invalid connection ID".data

/-- The codec decode (service.go lines 519–523): split the handle on
`"-"`; fail if fewer than two segments result, else the tenant is the
second segment (`parts[1]`). -/
def decodeHandle (connectionId : GoString) : Except GoString GoString :=
  match splitOnChar '-' connectionId with
  | _ :: tenantID :: _ => .ok tenantID
  | _ => .error invalidConnId

/-- The fixed, pre-configured data-source descriptor hard-coded in
`ReleaseConnection` and `GetPoolStats` (service.go lines 524 and 532). -/
def fixedDsn : GoString :=
  "host=localhost port=5432 user=admin password=securepassword dbname=tenant_registry".data

/-- `pb.ConnectionResponse`: connection id and error text. -/
structure ConnectionResponse where
  connectionId : GoString
  error : GoString
  deriving DecidableEq, Repr

/-- `pb.ReleaseResponse`: success flag and error text. -/
structure ReleaseResponse where
  success : Bool
  error : GoString
  deriving DecidableEq, Repr

/-- `pb.StatsResponse`: the three counters and error text. -/
structure StatsResponse where
  activeConnections : Int
  idleConnections : Int
  totalConnections : Int
  error : GoString
  deriving DecidableEq, Repr

/-- A Go `(resp, err)` return: the response payload, the transport-level
error (`none` = nil), and the registry state after the call. -/
abbrev ServiceResult (ρ : Type) := ρ × Option GoString × PoolState

/-- `ConnectionPoolServiceServer.GetConnection` (service.go 507–515):
delegate to the registry; on failure mirror the error text into the
response and return the transport error; on success mint a handle. -/
def ServiceGetConnection (env : PgxEnv) (s : PoolState)
    (tenantId dsn : GoString) (nano : Nat) : ServiceResult ConnectionResponse :=
  match GetConnection env s tenantId dsn with
  | (.error e, s₁) => ({ connectionId := [], error := e }, some e, s₁)
  | (.ok _, s₁) =>
    ({ connectionId := encodeHandle tenantId nano, error := [] }, none, s₁)

/-- The registry call made by the façade release after a successful
decode: `poolManager.ReleaseConnection(ctx, tenantID, fixedDsn)` and the
translation of its outcome into the response (service.go 524–528). -/
def forwardRelease (s : PoolState) (tenantID : GoString) :
    ServiceResult ReleaseResponse :=
  match ReleaseConnection s tenantID fixedDsn with
  | (.error e, s₁) => ({ success := false, error := e }, some e, s₁)
  | (.ok _, s₁) => ({ success := true, error := [] }, none, s₁)

/-- `ConnectionPoolServiceServer.ReleaseConnection` (service.go 517–529):
decode the handle; on malformed handle report failure on both channels
and touch nothing; else release `(parts[1], fixedDsn)`. -/
def ServiceRelease (s : PoolState) (connectionId : GoString) :
    ServiceResult ReleaseResponse :=
  match decodeHandle connectionId with
  | .error e => ({ success := false, error := e }, some e, s)
  | .ok tenantID => forwardRelease s tenantID

/-- `ConnectionPoolServiceServer.GetPoolStats` (service.go 531–541):
query the registry at `(tenantId, fixedDsn)`; mirror errors on both
channels; on success copy the three counters. -/
def ServiceGetPoolStats (env : PgxEnv) (s : PoolState) (tenantId : GoString) :
    ServiceResult StatsResponse :=
  match GetStats env s tenantId fixedDsn with
  | ((_, some e), s₁) =>
    ({ activeConnections := 0, idleConnections := 0, totalConnections := 0,
       error := e }, some e, s₁)
  | ((st, none), s₁) =>
    ({ activeConnections := st.activeConnections
       idleConnections := st.idleConnections
       totalConnections := st.totalConnections
       error := [] }, none, s₁)

/-- The state after `n` repeated `GetConnection` calls with the same
arguments. -/
def iterateGet (env : PgxEnv) (tenantID dsn : GoString) :
    Nat → PoolState → PoolState
  | 0, s => s
  | n + 1, s => iterateGet env tenantID dsn n (GetConnection env s tenantID dsn).2

/-- Dual-channel error discipline for one façade result: a transport
error is present exactly together with an identical, non-empty response
error-text field; on success the field is empty. -/
def dualChannel {ρ : Type} (errText : ρ → GoString) (r : ServiceResult ρ) : Prop :=
  match r.2.1 with
  | none => errText r.1 = []
  | some e => errText r.1 = e ∧ e ≠ []

/-! ## Concrete instantiations used by witnesses -/

/-- A pgx environment in which every dsn parses and construction always
succeeds, returning pool `1`. -/
def env0 : PgxEnv where
  parseConfig := fun d => .ok ⟨d, 0, 0, 0, 0⟩
  newPool := fun _ => .ok 1
  stat := fun _ => ⟨2, 3, 5⟩

/-- A pgx environment in which parsing and construction always fail,
with non-empty error texts. -/
def envFail : PgxEnv where
  parseConfig := fun _ => .error "invalid dsn".data
  newPool := fun _ => .error "pool construction failed".data
  stat := fun _ => ⟨0, 0, 0⟩

/-- A registry holding pool `7` under key `("t1", "d1")`. -/
def stHit : PoolState := { pools := [(mkKey "t1".data "d1".data, 7)], closed := [] }

/-- A registry holding pool `3` for tenant `"t1"` under the dsn
`"other"`, which differs from the façade's fixed descriptor. -/
def stOther : PoolState := { pools := [(mkKey "t1".data "other".data, 3)], closed := [] }

end ConnPool

namespace ConnPool

/-! ## Helper lemmas -/

/-- Splitting never yields an empty segment list. -/
theorem splitOnChar_ne_nil (sep : Char) (l : List Char) : splitOnChar sep l ≠ [] := by
  cases l with
  | nil => simp [splitOnChar]
  | cons c rest =>
    simp only [splitOnChar]
    split
    · simp
    · split <;> simp

/-- A string free of the separator splits into a single segment. -/
theorem splitOnChar_no_sep (sep : Char) (l : List Char) (h : sep ∉ l) :
    splitOnChar sep l = [l] := by
  induction l with
  | nil => rfl
  | cons c rest ih =>
    have hc : ¬c = sep := fun hc => h (hc ▸ List.mem_cons_self c rest)
    have hr : sep ∉ rest := fun hm => h (List.mem_cons_of_mem _ hm)
    simp [splitOnChar, hc, ih hr]

/-- Splitting past a separator-free prefix peels off that prefix as the
first segment. -/
theorem splitOnChar_append_sep (sep : Char) (xs rest : List Char) (h : sep ∉ xs) :
    splitOnChar sep (xs ++ sep :: rest) = xs :: splitOnChar sep rest := by
  induction xs with
  | nil => simp [splitOnChar]
  | cons c xs ih =>
    have hc : ¬c = sep := fun hc => h (hc ▸ List.mem_cons_self c xs)
    have hx : sep ∉ xs := fun hm => h (List.mem_cons_of_mem _ hm)
    simp [List.cons_append, splitOnChar, hc, ih hx]

/-- Deleting a key removes it from the lookup domain. -/
theorem mapLookup_mapErase_self (m : List (GoString × Pool)) (k : GoString) :
    mapLookup (mapErase m k) k = none := by
  induction m with
  | nil => rfl
  | cons kv rest ih =>
    obtain ⟨k₀, v₀⟩ := kv
    by_cases hk : k₀ = k
    · simp [mapErase, hk, ih]
    · simp [mapErase, mapLookup, hk, ih]

/-- The registry's not-found error text is never empty. -/
theorem poolNotFoundMsg_ne_nil (t d : GoString) : poolNotFoundMsg t d ≠ [] := by
  have h : ("pool not found for tenant ".data : List Char) =
      'p' :: "ool not found for tenant ".data := rfl
  simp [poolNotFoundMsg, h]

/-- The façade's malformed-handle error text is never empty. -/
theorem invalidConnId_ne_nil : invalidConnId ≠ [] := by decide

/-! ## Claim theorems -/

/-- C1: `GetOrCreate` is idempotent on an existing key: if the registry
already holds pool `p` for `(tenantID, dsn)`, `GetConnection` returns
exactly that pool and leaves the state unchanged, and `n` repeated calls
leave the state unchanged for every `n`. -/
theorem getConnection_idempotent_on_hit (env : PgxEnv) (s : PoolState)
    (tenantID dsn : GoString) (p : Pool) (n : Nat)
    (h : mapLookup s.pools (mkKey tenantID dsn) = some p) :
    GetConnection env s tenantID dsn = (.ok p, s) ∧
    iterateGet env tenantID dsn n s = s := by
  have hG : GetConnection env s tenantID dsn = (.ok p, s) := by
    simp [GetConnection, h]
  refine ⟨hG, ?_⟩
  induction n with
  | zero => rfl
  | succ m ih => simp [iterateGet, hG, ih]

/-- C1 witness: a registry holding pool 7 for `("t1", "d1")` returns it
unchanged, and three repeated calls leave the state intact. -/
theorem getConnection_idempotent_on_hit_witness :
    mapLookup stHit.pools (mkKey "t1".data "d1".data) = some 7 ∧
    (GetConnection env0 stHit "t1".data "d1".data = (.ok 7, stHit) ∧
      iterateGet env0 "t1".data "d1".data 3 stHit = stHit) :=
  ⟨by decide,
    getConnection_idempotent_on_hit env0 stHit "t1".data "d1".data 7 3 (by decide)⟩

/-- C2: a failed `GetOrCreate` is atomic: on a registry miss, if parsing
the dsn fails with `e` — or parsing succeeds and pool construction fails
with `e` — then `GetConnection` returns exactly that error and the state
it was given, and from an empty registry the size stays 0. -/
theorem getConnection_failure_atomic (env : PgxEnv) (s : PoolState)
    (tenantID dsn e : GoString)
    (hmiss : mapLookup s.pools (mkKey tenantID dsn) = none)
    (hfail : env.parseConfig dsn = .error e ∨
      ∃ c, env.parseConfig dsn = .ok c ∧ env.newPool (withDefaults c) = .error e) :
    GetConnection env s tenantID dsn = (.error e, s) ∧
    (s.pools = [] → ((GetConnection env s tenantID dsn).2).pools.length = 0) := by
  have hG : GetConnection env s tenantID dsn = (.error e, s) := by
    rcases hfail with hp | ⟨c, hp, hn⟩
    · simp [GetConnection, hmiss, hp]
    · simp [GetConnection, hmiss, hp, hn]
  exact ⟨hG, fun he => by simp [hG, he]⟩

/-- C2 witness: `GetConnection` on `"invalid-dsn-format"` against an
empty registry, in an environment whose parse fails, errors and leaves
the registry empty. -/
theorem getConnection_failure_atomic_witness :
    (mapLookup newConnectionPoolManager.pools
        (mkKey "t1".data "invalid-dsn-format".data) = none ∧
      envFail.parseConfig "invalid-dsn-format".data = .error "invalid dsn".data) ∧
    (GetConnection envFail newConnectionPoolManager "t1".data "invalid-dsn-format".data =
        (.error "invalid dsn".data, newConnectionPoolManager) ∧
      (newConnectionPoolManager.pools = [] →
        ((GetConnection envFail newConnectionPoolManager "t1".data
            "invalid-dsn-format".data).2).pools.length = 0)) :=
  ⟨⟨by decide, by decide⟩,
    getConnection_failure_atomic envFail newConnectionPoolManager "t1".data
      "invalid-dsn-format".data "invalid dsn".data (by decide) (Or.inl (by decide))⟩

/-- C3: dual-channel error reporting: every façade operation, on every
input (given that the external library reports failures with non-empty
error texts), either succeeds with a nil transport error and an empty
response error field, or fails with a transport error and an identical,
non-empty response error field. -/
theorem facade_dual_channel (env : PgxEnv) (s : PoolState)
    (tenantId dsn connectionId : GoString) (nano : Nat)
    (hpe : ∀ d e, env.parseConfig d = .error e → e ≠ [])
    (hne : ∀ c e, env.newPool c = .error e → e ≠ []) :
    dualChannel ConnectionResponse.error (ServiceGetConnection env s tenantId dsn nano) ∧
    dualChannel ReleaseResponse.error (ServiceRelease s connectionId) ∧
    dualChannel StatsResponse.error (ServiceGetPoolStats env s tenantId) := by
  refine ⟨?_, ?_, ?_⟩
  · unfold ServiceGetConnection
    rcases hl : mapLookup s.pools (mkKey tenantId dsn) with _ | p
    · rcases hp : env.parseConfig dsn with ec | c
      · simp [GetConnection, hl, hp, dualChannel, hpe dsn ec hp]
      · rcases hn : env.newPool (withDefaults c) with en | pl
        · simp [GetConnection, hl, hp, hn, dualChannel, hne _ en hn]
        · simp [GetConnection, hl, hp, hn, dualChannel]
    · simp [GetConnection, hl, dualChannel]
  · unfold ServiceRelease decodeHandle
    rcases hs : splitOnChar '-' connectionId with _ | ⟨x, _ | ⟨t, rest⟩⟩
    · exact absurd hs (splitOnChar_ne_nil '-' connectionId)
    · simp [dualChannel, invalidConnId_ne_nil]
    · unfold forwardRelease ReleaseConnection
      rcases hl : mapLookup s.pools (mkKey t fixedDsn) with _ | p
      · simp [hl, dualChannel, poolNotFoundMsg_ne_nil]
      · simp [hl, dualChannel]
  · unfold ServiceGetPoolStats GetStats
    rcases hl : mapLookup s.pools (mkKey tenantId fixedDsn) with _ | p
    · simp [hl, dualChannel, poolNotFoundMsg_ne_nil]
    · simp [hl, dualChannel]

/-- C3 witness: dual-channel discipline holds concretely for a failing
get, a not-found release and a not-found stats query. -/
theorem facade_dual_channel_witness :
    dualChannel ConnectionResponse.error
      (ServiceGetConnection envFail newConnectionPoolManager "t1".data
        "invalid-dsn-format".data 1) ∧
    dualChannel ReleaseResponse.error
      (ServiceRelease newConnectionPoolManager "conn-t1-99".data) ∧
    dualChannel StatsResponse.error
      (ServiceGetPoolStats envFail newConnectionPoolManager "t1".data) :=
  facade_dual_channel envFail newConnectionPoolManager "t1".data
    "invalid-dsn-format".data "conn-t1-99".data 1
    (fun d e h => by simp [envFail] at h; subst h; decide)
    (fun c e h => by simp [envFail] at h; subst h; decide)

/-- C4: the façade release and stats ignore the creation-time dsn: for a
handle decoding to `tenantID`, `ServiceRelease` forwards to the registry
with the fixed descriptor, so when tenant `tenantID` only has a pool
under a different dsn, both release and stats fail with not-found at
`(tenantID, fixedDsn)` and leave the state unchanged. -/
theorem facade_uses_fixed_dsn (env : PgxEnv) (s : PoolState)
    (connectionId tenantID origDsn : GoString) (p : Pool)
    (hdec : decodeHandle connectionId = .ok tenantID)
    (horig : mapLookup s.pools (mkKey tenantID origDsn) = some p)
    (hne : origDsn ≠ fixedDsn)
    (hmiss : mapLookup s.pools (mkKey tenantID fixedDsn) = none) :
    ServiceRelease s connectionId = forwardRelease s tenantID ∧
    ServiceRelease s connectionId =
      ({ success := false, error := poolNotFoundMsg tenantID fixedDsn },
        some (poolNotFoundMsg tenantID fixedDsn), s) ∧
    ServiceGetPoolStats env s tenantID =
      ({ activeConnections := 0, idleConnections := 0, totalConnections := 0,
         error := poolNotFoundMsg tenantID fixedDsn },
        some (poolNotFoundMsg tenantID fixedDsn), s) := by
  have h1 : ServiceRelease s connectionId = forwardRelease s tenantID := by
    simp [ServiceRelease, hdec]
  refine ⟨h1, ?_, ?_⟩
  · rw [h1]
    simp [forwardRelease, ReleaseConnection, hmiss]
  · simp [ServiceGetPoolStats, GetStats, hmiss]

/-- C4 witness: tenant `"t1"` has a pool only under dsn `"other"`;
releasing handle `"conn-t1-123"` and querying stats both fail with
not-found at the fixed descriptor. -/
theorem facade_uses_fixed_dsn_witness :
    (decodeHandle "conn-t1-123".data = .ok "t1".data ∧
      mapLookup stOther.pools (mkKey "t1".data "other".data) = some 3 ∧
      ("other".data : GoString) ≠ fixedDsn ∧
      mapLookup stOther.pools (mkKey "t1".data fixedDsn) = none) ∧
    (ServiceRelease stOther "conn-t1-123".data = forwardRelease stOther "t1".data ∧
      ServiceRelease stOther "conn-t1-123".data =
        ({ success := false, error := poolNotFoundMsg "t1".data fixedDsn },
          some (poolNotFoundMsg "t1".data fixedDsn), stOther) ∧
      ServiceGetPoolStats env0 stOther "t1".data =
        ({ activeConnections := 0, idleConnections := 0, totalConnections := 0,
           error := poolNotFoundMsg "t1".data fixedDsn },
          some (poolNotFoundMsg "t1".data fixedDsn), stOther)) :=
  ⟨⟨by decide, by decide, by decide, by decide⟩,
    facade_uses_fixed_dsn env0 stOther "conn-t1-123".data "t1".data "other".data 3
      (by decide) (by decide) (by decide) (by decide)⟩

/-- C5: codec round-trip: for a tenant containing no `'-'`, decoding the
minted handle recovers the tenant exactly, for every timestamp; for the
tenant `"a-b"` (which contains `'-'`), decoding returns only `"a"`,
which differs from the original tenant. -/
theorem codec_round_trip (tenantID : GoString) (nano nano₂ : Nat)
    (h : '-' ∉ tenantID) :
    decodeHandle (encodeHandle tenantID nano) = .ok tenantID ∧
    decodeHandle (encodeHandle ['a', '-', 'b'] nano₂) = .ok ['a'] ∧
    (['a'] : GoString) ≠ ['a', '-', 'b'] := by
  have hsplit : ∀ (t : GoString) (m : Nat), '-' ∉ t →
      splitOnChar '-' (encodeHandle t m) =
        "conn".data :: t :: splitOnChar '-' (natDigits m) := by
    intro t m ht
    have he : encodeHandle t m = "conn".data ++ '-' :: (t ++ '-' :: natDigits m) := by
      simp [encodeHandle]
    rw [he, splitOnChar_append_sep '-' "conn".data _ (by decide),
      splitOnChar_append_sep '-' t _ ht]
  refine ⟨?_, ?_, by decide⟩
  · simp [decodeHandle, hsplit tenantID nano h]
  · have h2 : splitOnChar '-' (encodeHandle ['a', '-', 'b'] nano₂) =
        "conn".data :: ['a'] :: splitOnChar '-' ('b' :: '-' :: natDigits nano₂) := by
      have he : encodeHandle ['a', '-', 'b'] nano₂ =
          "conn".data ++ '-' :: (['a'] ++ '-' :: ('b' :: '-' :: natDigits nano₂)) := by
        simp [encodeHandle]
      rw [he, splitOnChar_append_sep '-' "conn".data _ (by decide),
        splitOnChar_append_sep '-' ['a'] _ (by decide)]
    simp [decodeHandle, h2]

/-- C5 witness: `"t1"` round-trips through the codec at timestamp 123,
and the ambiguous tenant `"a-b"` decodes to `"a"` at timestamp 5. -/
theorem codec_round_trip_witness :
    ('-' ∉ ("t1".data : GoString)) ∧
    (decodeHandle (encodeHandle "t1".data 123) = .ok "t1".data ∧
      decodeHandle (encodeHandle ['a', '-', 'b'] 5) = .ok ['a'] ∧
      (['a'] : GoString) ≠ ['a', '-', 'b']) :=
  ⟨by decide, codec_round_trip "t1".data 123 5 (by decide)⟩

/-- C6 counterexample: the distinct pairs `("a:b", "c")` and
`("a", "b:c")` build the same registry key `"a:b:c"`, and the registry
really conflates them: after creating a pool for `("a:b", "c")`,
releasing `("a", "b:c")` succeeds — refuting exact pairwise key
equality. -/
theorem poolKey_exact_equality_counterexample :
    mkKey "a:b".data "c".data = mkKey "a".data "b:c".data ∧
    ¬(("a:b".data : GoString) = "a".data ∧ ("c".data : GoString) = "b:c".data) ∧
    (ReleaseConnection
        (GetConnection env0 newConnectionPoolManager "a:b".data "c".data).2
        "a".data "b:c".data).1 = .ok () :=
  ⟨by decide, by decide, by decide⟩

/-- C6 amended: the registry keys entries by the concatenation
`tenant ++ ":" ++ dsn`; provided neither tenant contains the separator
`':'`, two pairs map to the same registry key iff tenant and dsn match
exactly as strings — tenants containing `':'` can alias distinct
pairs. -/
theorem poolKey_equality_amended (t₁ d₁ t₂ d₂ : GoString)
    (h₁ : ':' ∉ t₁) (h₂ : ':' ∉ t₂) :
    mkKey t₁ d₁ = mkKey t₂ d₂ ↔ (t₁ = t₂ ∧ d₁ = d₂) := by
  constructor
  · intro h
    have hs := congrArg (splitOnChar ':') h
    rw [show mkKey t₁ d₁ = t₁ ++ ':' :: d₁ from rfl,
      show mkKey t₂ d₂ = t₂ ++ ':' :: d₂ from rfl,
      splitOnChar_append_sep ':' t₁ d₁ h₁,
      splitOnChar_append_sep ':' t₂ d₂ h₂] at hs
    have ht : t₁ = t₂ := (List.cons.injEq _ _ _ _ ▸ hs).1
    subst ht
    have hd : (':' :: d₁ : GoString) = ':' :: d₂ := List.append_cancel_left h
    exact ⟨rfl, (List.cons.injEq _ _ _ _ ▸ hd).2⟩
  · rintro ⟨rfl, rfl⟩
    rfl

/-- C6 amended witness: for the colon-free tenants `"t1"`, key equality
coincides with pairwise equality. -/
theorem poolKey_equality_amended_witness :
    (':' ∉ ("t1".data : GoString)) ∧
    (mkKey "t1".data "d1".data = mkKey "t1".data "d1".data ↔
      (("t1".data : GoString) = "t1".data ∧ ("d1".data : GoString) = "d1".data)) :=
  ⟨by decide,
    poolKey_equality_amended "t1".data "d1".data "t1".data "d1".data
      (by decide) (by decide)⟩

/-- C7: `decodeHandle` fails exactly on handles that split on `'-'` into
fewer than two segments, and on such handles the façade release reports
`success = false` with the invalid-handle text and performs no registry
operation. -/
theorem decode_rejects_short_handles (connectionId : GoString) (s : PoolState) :
    ((∃ e, decodeHandle connectionId = .error e) ↔
      (splitOnChar '-' connectionId).length < 2) ∧
    ((splitOnChar '-' connectionId).length < 2 →
      ServiceRelease s connectionId =
        ({ success := false, error := invalidConnId }, some invalidConnId, s)) := by
  rcases hs : splitOnChar '-' connectionId with _ | ⟨x, _ | ⟨t, rest⟩⟩
  · exact absurd hs (splitOnChar_ne_nil '-' connectionId)
  · simp [decodeHandle, ServiceRelease, hs]
  · simp [decodeHandle, ServiceRelease, hs]

/-- C7 witness: the empty handle splits into one segment, is rejected,
and leaves the empty registry untouched. -/
theorem decode_rejects_short_handles_witness :
    ((∃ e, decodeHandle [] = .error e) ↔ (splitOnChar '-' []).length < 2) ∧
    ((splitOnChar '-' ([] : GoString)).length < 2 →
      ServiceRelease newConnectionPoolManager [] =
        ({ success := false, error := invalidConnId }, some invalidConnId,
          newConnectionPoolManager)) :=
  decode_rejects_short_handles [] newConnectionPoolManager

/-- C8: release removes an entry exactly once: a present key is closed
(recorded in the `closed` trace), removed from the map and the call
succeeds; the removed key no longer resolves; and on any state where a
key is absent, release fails with the not-found error and returns the
state unchanged. -/
theorem release_exactly_once (s s' : PoolState) (t d t' d' : GoString) (p : Pool)
    (hp : mapLookup s.pools (mkKey t d) = some p)
    (habs : mapLookup s'.pools (mkKey t' d') = none) :
    ReleaseConnection s t d =
      (.ok (), { pools := mapErase s.pools (mkKey t d), closed := s.closed ++ [p] }) ∧
    mapLookup (mapErase s.pools (mkKey t d)) (mkKey t d) = none ∧
    ReleaseConnection s' t' d' = (.error (poolNotFoundMsg t' d'), s') := by
  refine ⟨?_, mapLookup_mapErase_self _ _, ?_⟩
  · simp [ReleaseConnection, hp]
  · simp [ReleaseConnection, habs]

/-- C8 witness: releasing `("t1", "d1")` from a registry holding pool 7
closes and removes it, and releasing from the empty registry fails with
not-found. -/
theorem release_exactly_once_witness :
    (mapLookup stHit.pools (mkKey "t1".data "d1".data) = some 7 ∧
      mapLookup newConnectionPoolManager.pools (mkKey "t1".data "d1".data) = none) ∧
    (ReleaseConnection stHit "t1".data "d1".data =
        (.ok (), { pools := mapErase stHit.pools (mkKey "t1".data "d1".data),
                   closed := stHit.closed ++ [7] }) ∧
      mapLookup (mapErase stHit.pools (mkKey "t1".data "d1".data))
        (mkKey "t1".data "d1".data) = none ∧
      ReleaseConnection newConnectionPoolManager "t1".data "d1".data =
        (.error (poolNotFoundMsg "t1".data "d1".data), newConnectionPoolManager)) :=
  ⟨⟨by decide, by decide⟩,
    release_exactly_once stHit newConnectionPoolManager "t1".data "d1".data
      "t1".data "d1".data 7 (by decide) (by decide)⟩

/-- C9: stats on an unknown key fails with the not-found error and the
zero-valued counts, and stats never changes the registry state, on any
key. -/
theorem stats_unknown_key (env : PgxEnv) (s : PoolState) (t d t' d' : GoString)
    (habs : mapLookup s.pools (mkKey t d) = none) :
    GetStats env s t d = ((⟨0, 0, 0⟩, some (poolNotFoundMsg t d)), s) ∧
    (GetStats env s t' d').2 = s := by
  constructor
  · simp [GetStats, habs]
  · unfold GetStats
    rcases hl : mapLookup s.pools (mkKey t' d') with _ | q <;> simp [hl]

/-- C9 witness: stats on `("t1", "d1")` against the empty registry
errors with zero counts and leaves the state alone. -/
theorem stats_unknown_key_witness :
    mapLookup newConnectionPoolManager.pools (mkKey "t1".data "d1".data) = none ∧
    (GetStats env0 newConnectionPoolManager "t1".data "d1".data =
        ((⟨0, 0, 0⟩, some (poolNotFoundMsg "t1".data "d1".data)),
          newConnectionPoolManager) ∧
      (GetStats env0 newConnectionPoolManager "t2".data "d2".data).2 =
        newConnectionPoolManager) :=
  ⟨by decide,
    stats_unknown_key env0 newConnectionPoolManager "t1".data "d1".data
      "t2".data "d2".data (by decide)⟩

/-- C10: handle decoding never checks the literal `"conn"` head: any
handle splitting into at least two segments is accepted with the second
segment as the tenant, and the façade forwards the release for that
tenant. -/
theorem decode_ignores_handle_head (s : PoolState)
    (connectionId x tenantID : GoString) (rest : List GoString)
    (hsplit : splitOnChar '-' connectionId = x :: tenantID :: rest) :
    decodeHandle connectionId = .ok tenantID ∧
    ServiceRelease s connectionId = forwardRelease s tenantID := by
  constructor
  · simp [decodeHandle, hsplit]
  · simp [ServiceRelease, decodeHandle, hsplit]

/-- C10 witness: the handle `"invalid-format"`, whose first segment is
not `"conn"`, is accepted with tenant `"format"`. -/
theorem decode_ignores_handle_head_witness :
    splitOnChar '-' "invalid-format".data =
      ["invalid".data, "format".data] ∧
    (decodeHandle "invalid-format".data = .ok "format".data ∧
      ServiceRelease newConnectionPoolManager "invalid-format".data =
        forwardRelease newConnectionPoolManager "format".data) :=
  ⟨by decide,
    decode_ignores_handle_head newConnectionPoolManager "invalid-format".data
      "invalid".data "format".data [] (by decide)⟩

end ConnPool
